import Mathlib

/-!
Shallow embedding of the credential-lifecycle core of the
gmail-mcp-server repository (module `src/oauth.ts`, whose full text is
recorded in `src/.planning/PROJECT.md`).

The embedding has two layers:

* a typed layer mirroring the TypeScript `Credentials` interface and the
  functions `refreshAccessToken` and `getAuthenticatedClient`, with the
  two external effects (the token-endpoint exchange and the credential
  file) made explicit: the exchange outcome is an input, and the store
  content plus effect counters (refresh calls, store writes) are carried
  in the result;

* a JSON layer mirroring `loadCredentials`, which runs `JSON.parse` on
  the file content inside a try/catch and returns the parsed value with
  no shape validation, plus the JavaScript truthiness checks
  `!credentials` and `!credentials.refresh_token` performed by
  `getAuthenticatedClient`.
-/

namespace GmailMcp

/-- The persisted credential record: TypeScript interface `Credentials`
(`access_token`, `refresh_token`, `scope`, `token_type` strings and
`expiry_date` epoch milliseconds). -/
structure Credentials where
  access_token : String
  refresh_token : String
  scope : String
  token_type : String
  expiry_date : Int
deriving Repr, DecidableEq

/-- A successful response of `oauth2Client.refreshAccessToken()`: the code
reads `newCreds.access_token!` and `newCreds.expiry_date!`; the response may
also carry a rotated refresh token, which the code never reads. -/
structure RefreshResponse where
  access_token : String
  expiry_date : Int
  refresh_token : Option String
deriving Repr, DecidableEq

/-- Outcome of the token-endpoint exchange: the promise either resolves with
a response or rejects with an underlying cause (network error, revoked
token, malformed response rejected by the library). -/
inductive RefreshOutcome where
  | success (resp : RefreshResponse)
  | failure (cause : String)
deriving Repr, DecidableEq

/-- The errors `getAuthenticatedClient` can throw: no credential file (or
unparsable one), falsy `refresh_token`, or a failed refresh exchange whose
message embeds the underlying cause. -/
inductive AuthError where
  | missingCredentials
  | missingRefreshToken
  | refreshFailure (cause : String)
deriving Repr, DecidableEq

/-- The fields `getAuthenticatedClient` sets on the returned OAuth2 client
via `oauth2Client.setCredentials`. -/
structure ClientCredentials where
  access_token : String
  refresh_token : String
  expiry_date : Int
deriving Repr, DecidableEq

/-- Result of `refreshAccessToken`: the returned (or thrown) value, what was
written to the credential file if anything, and the effect counts. -/
structure RefreshResult where
  result : Except String Credentials
  saved : Option Credentials
  refreshCalls : Nat
  storeWrites : Nat
deriving Repr

/-- `refreshAccessToken(oauth2Client, credentials)`: submits the refresh
token; on success builds `updatedCredentials` with `access_token` and
`expiry_date` from the response and `refresh_token`/`scope`/`token_type`
kept from the pre-refresh record, saves it to disk, and returns it; on
rejection the error propagates with nothing written. -/
def refreshAccessToken (credentials : Credentials) (outcome : RefreshOutcome) :
    RefreshResult :=
  match outcome with
  | .failure cause =>
      { result := .error cause, saved := none, refreshCalls := 1, storeWrites := 0 }
  | .success newCreds =>
      let updatedCredentials : Credentials :=
        { access_token := newCreds.access_token
          refresh_token := credentials.refresh_token
          scope := credentials.scope
          token_type := credentials.token_type
          expiry_date := newCreds.expiry_date }
      { result := .ok updatedCredentials, saved := some updatedCredentials,
        refreshCalls := 1, storeWrites := 1 }

/-- Result of one `getAuthenticatedClient` invocation: the returned client
fields or the thrown error, the credential-file content afterwards, and the
effect counts of this invocation. -/
structure AuthOutput where
  result : Except AuthError ClientCredentials
  finalStore : Option Credentials
  refreshCalls : Nat
  storeWrites : Nat
deriving Repr

/-- The expiry buffer: `5 * 60 * 1000` milliseconds. -/
def expiryBuffer : Int := 5 * 60 * 1000

/-- `getAuthenticatedClient()` over the typed layer. `store` is the
credential-file content as `loadCredentials` yields it (`none` for a
missing or unparsable file), `now` is `Date.now()`, and `outcome` is what
the token endpoint would do if called. The code throws on a missing
record, then on a falsy (empty) `refresh_token`, then computes
`isExpired = credentials.expiry_date < now + expiryBuffer`, refreshes if
due, and sets `access_token`, `refresh_token`, `expiry_date` of the valid
credentials on the client. -/
def getAuthenticatedClient (now : Int) (store : Option Credentials)
    (outcome : RefreshOutcome) : AuthOutput :=
  match store with
  | none =>
      { result := .error .missingCredentials, finalStore := store,
        refreshCalls := 0, storeWrites := 0 }
  | some credentials =>
      if credentials.refresh_token = "" then
        { result := .error .missingRefreshToken, finalStore := store,
          refreshCalls := 0, storeWrites := 0 }
      else
        let isExpired : Bool := credentials.expiry_date < now + expiryBuffer
        if isExpired then
          let r := refreshAccessToken credentials outcome
          match r.result with
          | .error cause =>
              { result := .error (.refreshFailure cause),
                finalStore := store,
                refreshCalls := r.refreshCalls, storeWrites := r.storeWrites }
          | .ok validCredentials =>
              { result := .ok
                  { access_token := validCredentials.access_token
                    refresh_token := validCredentials.refresh_token
                    expiry_date := validCredentials.expiry_date },
                finalStore := r.saved,
                refreshCalls := r.refreshCalls, storeWrites := r.storeWrites }
        else
          { result := .ok
              { access_token := credentials.access_token
                refresh_token := credentials.refresh_token
                expiry_date := credentials.expiry_date },
            finalStore := store,
            refreshCalls := 0, storeWrites := 0 }

/-! JSON layer for `loadCredentials`. -/

/-- JSON values as `JSON.parse` produces them. -/
inductive Json where
  | null
  | bool (b : Bool)
  | num (n : Int)
  | str (s : String)
  | arr (xs : List Json)
  | obj (fields : List (String × Json))
deriving Repr

/-- JavaScript truthiness of a parsed value: `null`, `false`, `0` and `""`
are falsy; arrays and objects are truthy. -/
def jsFalsy : Json → Bool
  | .null => true
  | .bool b => !b
  | .num n => n == 0
  | .str s => s == ""
  | .arr _ => false
  | .obj _ => false

/-- JavaScript property access `v[k]`: `none` models `undefined`
(non-objects and missing keys). -/
def getField : Json → String → Option Json
  | .obj fields, k => (fields.find? (fun p => p.1 == k)).map (fun p => p.2)
  | _, _ => none

/-- Truthiness of a possibly-`undefined` value. -/
def jsFalsyOpt : Option Json → Bool
  | none => true
  | some v => jsFalsy v

/-- Content of the credential file as `loadCredentials` sees it: absent,
present but rejected by `JSON.parse` (syntactically invalid), or present
and parsing to a JSON value. -/
inductive FileContent where
  | absent
  | invalidSyntax
  | content (j : Json)
deriving Repr

/-- `loadCredentials()`: returns `null` if the file does not exist, returns
`JSON.parse` of the content, and returns `null` if `JSON.parse` throws.
The parsed value is returned as-is, with no validation of its shape. -/
def loadCredentials : FileContent → Option Json
  | .absent => none
  | .invalidSyntax => none
  | .content j => some j

/-- The error thrown by the first two checks of `getAuthenticatedClient`
on the JSON layer (`none` when both checks pass): `!credentials` throws
`MissingCredentialsError`, then `!credentials.refresh_token` throws
`MissingRefreshTokenError`. -/
def credentialCheck (file : FileContent) : Option AuthError :=
  match loadCredentials file with
  | none => some .missingCredentials
  | some credentials =>
      if jsFalsy credentials then some .missingCredentials
      else if jsFalsyOpt (getField credentials "refresh_token") then
        some .missingRefreshToken
      else none

end GmailMcp

namespace GmailMcp

/-! Claim theorems. -/

/-- C1: for every credential record due for refresh (`expiry_date < now +
5min`) with a non-empty `refresh_token`, and every successful
authorization-server response, one invocation of `getAuthenticatedClient`
performs exactly one refresh call and exactly one store write, and the
returned client's access token is the one from the refresh response. -/
theorem c1_forced_refresh (now : Int) (c : Credentials) (resp : RefreshResponse)
    (hdue : c.expiry_date < now + expiryBuffer) (htok : c.refresh_token ≠ "") :
    (getAuthenticatedClient now (some c) (.success resp)).refreshCalls = 1 ∧
    (getAuthenticatedClient now (some c) (.success resp)).storeWrites = 1 ∧
    (getAuthenticatedClient now (some c) (.success resp)).result = .ok
      { access_token := resp.access_token, refresh_token := c.refresh_token,
        expiry_date := resp.expiry_date } := by
  simp [getAuthenticatedClient, refreshAccessToken, htok, hdue]

/-- Witness for C1 at a concrete due record and response. -/
theorem c1_forced_refresh_witness :
    ((1000 : Int) < 0 + expiryBuffer ∧ ("r" : String) ≠ "") ∧
    ((getAuthenticatedClient 0
        (some ⟨"old", "r", "s", "Bearer", 1000⟩)
        (.success ⟨"new", 999999, none⟩)).refreshCalls = 1 ∧
     (getAuthenticatedClient 0
        (some ⟨"old", "r", "s", "Bearer", 1000⟩)
        (.success ⟨"new", 999999, none⟩)).storeWrites = 1 ∧
     (getAuthenticatedClient 0
        (some ⟨"old", "r", "s", "Bearer", 1000⟩)
        (.success ⟨"new", 999999, none⟩)).result = .ok
          { access_token := "new", refresh_token := "r",
            expiry_date := 999999 }) :=
  ⟨⟨by decide, by decide⟩,
   c1_forced_refresh 0 ⟨"old", "r", "s", "Bearer", 1000⟩ ⟨"new", 999999, none⟩
     (by decide) (by decide)⟩

/-- C2: when the refresh response omits a refresh token, the record built,
persisted and returned by `refreshAccessToken` keeps the pre-refresh
`refresh_token`, `scope` and `token_type`, and takes `access_token` and
`expiry_date` from the response. -/
theorem c2_omitted_refresh_token_preserved (c : Credentials)
    (resp : RefreshResponse) (homit : resp.refresh_token = none) :
    (refreshAccessToken c (.success resp)).result = .ok
      { access_token := resp.access_token, refresh_token := c.refresh_token,
        scope := c.scope, token_type := c.token_type,
        expiry_date := resp.expiry_date } ∧
    (refreshAccessToken c (.success resp)).saved = some
      { access_token := resp.access_token, refresh_token := c.refresh_token,
        scope := c.scope, token_type := c.token_type,
        expiry_date := resp.expiry_date } := by
  exact ⟨rfl, rfl⟩

/-- Witness for C2 at a concrete record and response without a refresh
token. -/
theorem c2_omitted_refresh_token_preserved_witness :
    (RefreshResponse.refresh_token ⟨"new", 42, none⟩ = none) ∧
    ((refreshAccessToken ⟨"old", "keep", "sc", "Bearer", 7⟩
        (.success ⟨"new", 42, none⟩)).result = .ok
          { access_token := "new", refresh_token := "keep", scope := "sc",
            token_type := "Bearer", expiry_date := 42 } ∧
     (refreshAccessToken ⟨"old", "keep", "sc", "Bearer", 7⟩
        (.success ⟨"new", 42, none⟩)).saved = some
          { access_token := "new", refresh_token := "keep", scope := "sc",
            token_type := "Bearer", expiry_date := 42 }) :=
  ⟨rfl, c2_omitted_refresh_token_preserved ⟨"old", "keep", "sc", "Bearer", 7⟩
    ⟨"new", 42, none⟩ rfl⟩

end GmailMcp

namespace GmailMcp

/-- C3 counterexample: the claim quantifies over every fresh record, but a
fresh record with an empty `refresh_token` makes `getAuthenticatedClient`
throw `MissingRefreshTokenError` instead of returning a client with the
stored access token: at `now = 0`, record
`⟨"a", "", "s", "Bearer", expiryBuffer⟩` is fresh yet no client is
returned. -/
theorem c3_counterexample :
    ¬ (∀ (now : Int) (c : Credentials) (outcome : RefreshOutcome),
        now + expiryBuffer ≤ c.expiry_date →
        (getAuthenticatedClient now (some c) outcome).refreshCalls = 0 ∧
        (getAuthenticatedClient now (some c) outcome).storeWrites = 0 ∧
        (getAuthenticatedClient now (some c) outcome).result = .ok
          { access_token := c.access_token, refresh_token := c.refresh_token,
            expiry_date := c.expiry_date }) := by
  intro h
  have := (h 0 ⟨"a", "", "s", "Bearer", expiryBuffer⟩ (.failure "x")
    (by simp)).2.2
  simp [getAuthenticatedClient] at this

/-- C3 amended: for every credential record with `expiry_date >= now +
5min`, the invocation performs zero refresh calls and zero store writes and
leaves the store unchanged; when additionally `refresh_token` is non-empty,
it returns a client carrying the stored `access_token` (and
`refresh_token`, `expiry_date`) unchanged. -/
theorem c3_fresh_no_refresh (now : Int) (c : Credentials)
    (outcome : RefreshOutcome) (hfresh : now + expiryBuffer ≤ c.expiry_date) :
    (getAuthenticatedClient now (some c) outcome).refreshCalls = 0 ∧
    (getAuthenticatedClient now (some c) outcome).storeWrites = 0 ∧
    (getAuthenticatedClient now (some c) outcome).finalStore = some c ∧
    (c.refresh_token ≠ "" →
      (getAuthenticatedClient now (some c) outcome).result = .ok
        { access_token := c.access_token, refresh_token := c.refresh_token,
          expiry_date := c.expiry_date }) := by
  have hnl : ¬ (c.expiry_date < now + expiryBuffer) := not_lt.mpr hfresh
  by_cases htok : c.refresh_token = "" <;>
    simp [getAuthenticatedClient, htok, hnl]

/-- Witness for the amended C3 at a concrete fresh record. -/
theorem c3_fresh_no_refresh_witness :
    ((0 : Int) + expiryBuffer ≤ 3600000) ∧
    ((getAuthenticatedClient 0 (some ⟨"tok", "r", "s", "Bearer", 3600000⟩)
        (.failure "never")).refreshCalls = 0 ∧
     (getAuthenticatedClient 0 (some ⟨"tok", "r", "s", "Bearer", 3600000⟩)
        (.failure "never")).storeWrites = 0 ∧
     (getAuthenticatedClient 0 (some ⟨"tok", "r", "s", "Bearer", 3600000⟩)
        (.failure "never")).finalStore = some ⟨"tok", "r", "s", "Bearer", 3600000⟩ ∧
     (("r" : String) ≠ "" →
       (getAuthenticatedClient 0 (some ⟨"tok", "r", "s", "Bearer", 3600000⟩)
          (.failure "never")).result = .ok
            { access_token := "tok", refresh_token := "r",
              expiry_date := 3600000 })) :=
  ⟨by decide,
   c3_fresh_no_refresh 0 ⟨"tok", "r", "s", "Bearer", 3600000⟩
     (.failure "never") (by decide)⟩

/-- C4 counterexample: a file holding `{}` is syntactically valid JSON that
is not a credential record, yet `loadCredentials` returns it rather than
absent, and the invocation then fails with `MissingRefreshTokenError`, not
`MissingCredentialsError`. -/
theorem c4_counterexample :
    loadCredentials (.content (.obj [])) ≠ none ∧
    credentialCheck (.content (.obj [])) = some .missingRefreshToken ∧
    credentialCheck (.content (.obj [])) ≠ some .missingCredentials := by
  refine ⟨?_, rfl, by decide⟩
  simp [loadCredentials]

/-- C4 amended: a file whose content `JSON.parse` rejects (syntactically
invalid) is treated by `loadCredentials` exactly like a missing file —
both yield absent, and `getAuthenticatedClient` then fails with
`MissingCredentialsError`; syntactically valid JSON of the wrong shape is
instead returned as parsed and flows into the later checks. -/
theorem c4_corrupt_equals_missing :
    loadCredentials .invalidSyntax = loadCredentials .absent ∧
    loadCredentials .invalidSyntax = none ∧
    credentialCheck .invalidSyntax = some .missingCredentials ∧
    credentialCheck .absent = some .missingCredentials :=
  ⟨rfl, rfl, rfl, rfl⟩

/-- C5: for a due record with non-empty `refresh_token`, a failed exchange
makes `getAuthenticatedClient` throw `RefreshFailureError` carrying the
underlying cause, with exactly one refresh attempt (no retry), no store
write, and the stored record unchanged. -/
theorem c5_refresh_failure (now : Int) (c : Credentials) (cause : String)
    (hdue : c.expiry_date < now + expiryBuffer) (htok : c.refresh_token ≠ "") :
    (getAuthenticatedClient now (some c) (.failure cause)).result =
      .error (.refreshFailure cause) ∧
    (getAuthenticatedClient now (some c) (.failure cause)).refreshCalls = 1 ∧
    (getAuthenticatedClient now (some c) (.failure cause)).storeWrites = 0 ∧
    (getAuthenticatedClient now (some c) (.failure cause)).finalStore = some c := by
  simp [getAuthenticatedClient, refreshAccessToken, htok, hdue]

/-- Witness for C5 at a concrete due record and a revoked-token cause. -/
theorem c5_refresh_failure_witness :
    ((-1000 : Int) < 0 + expiryBuffer ∧ ("r" : String) ≠ "") ∧
    ((getAuthenticatedClient 0 (some ⟨"old", "r", "s", "Bearer", -1000⟩)
        (.failure "invalid_grant")).result =
          .error (.refreshFailure "invalid_grant") ∧
     (getAuthenticatedClient 0 (some ⟨"old", "r", "s", "Bearer", -1000⟩)
        (.failure "invalid_grant")).refreshCalls = 1 ∧
     (getAuthenticatedClient 0 (some ⟨"old", "r", "s", "Bearer", -1000⟩)
        (.failure "invalid_grant")).storeWrites = 0 ∧
     (getAuthenticatedClient 0 (some ⟨"old", "r", "s", "Bearer", -1000⟩)
        (.failure "invalid_grant")).finalStore =
          some ⟨"old", "r", "s", "Bearer", -1000⟩) :=
  ⟨⟨by decide, by decide⟩,
   c5_refresh_failure 0 ⟨"old", "r", "s", "Bearer", -1000⟩ "invalid_grant"
     (by decide) (by decide)⟩

/-- C6: a record with empty `refresh_token` and an expiry in the past makes
`getAuthenticatedClient` fail with `MissingRefreshTokenError` with zero
refresh calls and zero store writes. -/
theorem c6_empty_refresh_token (now : Int) (c : Credentials)
    (outcome : RefreshOutcome) (htok : c.refresh_token = "")
    (hexp : c.expiry_date < now) :
    (getAuthenticatedClient now (some c) outcome).result =
      .error .missingRefreshToken ∧
    (getAuthenticatedClient now (some c) outcome).refreshCalls = 0 ∧
    (getAuthenticatedClient now (some c) outcome).storeWrites = 0 := by
  simp [getAuthenticatedClient, htok]

/-- Witness for C6 at a concrete expired record with empty refresh token. -/
theorem c6_empty_refresh_token_witness :
    (("" : String) = "" ∧ (-5 : Int) < 0) ∧
    ((getAuthenticatedClient 0 (some ⟨"tok", "", "s", "Bearer", -5⟩)
        (.failure "x")).result = .error .missingRefreshToken ∧
     (getAuthenticatedClient 0 (some ⟨"tok", "", "s", "Bearer", -5⟩)
        (.failure "x")).refreshCalls = 0 ∧
     (getAuthenticatedClient 0 (some ⟨"tok", "", "s", "Bearer", -5⟩)
        (.failure "x")).storeWrites = 0) :=
  ⟨⟨rfl, by decide⟩,
   c6_empty_refresh_token 0 ⟨"tok", "", "s", "Bearer", -5⟩ (.failure "x")
     rfl (by decide)⟩

end GmailMcp

namespace GmailMcp

/-- C7 counterexample: `refreshAccessToken` copies the response's
`expiry_date` without enforcing an increase; with a pre-refresh record at
expiry 100 and a successful response also carrying expiry 100, the updated
record's expiry is not strictly greater. -/
theorem c7_counterexample :
    ¬ (∀ (c : Credentials) (resp : RefreshResponse) (u : Credentials),
        (refreshAccessToken c (.success resp)).result = .ok u →
        c.expiry_date < u.expiry_date) := by
  intro h
  have := h ⟨"a", "r", "s", "Bearer", 100⟩ ⟨"new", 100, none⟩
    ⟨"new", "r", "s", "Bearer", 100⟩ rfl
  simp at this

/-- C7 amended: the updated record's `expiry_date` equals the response's
`expiry_date`, so it strictly exceeds the pre-refresh value exactly when
the response's value does; `refreshAccessToken` itself enforces no
increase. -/
theorem c7_expiry_from_response (c : Credentials) (resp : RefreshResponse)
    (hgt : c.expiry_date < resp.expiry_date) :
    ∀ u : Credentials, (refreshAccessToken c (.success resp)).result = .ok u →
      u.expiry_date = resp.expiry_date ∧ c.expiry_date < u.expiry_date := by
  intro u hu
  simp [refreshAccessToken] at hu
  subst hu
  exact ⟨rfl, hgt⟩

/-- Witness for the amended C7 at a concrete record and a response with a
later expiry. -/
theorem c7_expiry_from_response_witness :
    ((100 : Int) < 7200000) ∧
    (Credentials.expiry_date ⟨"new", "r", "s", "Bearer", 7200000⟩ = 7200000 ∧
     (100 : Int) < Credentials.expiry_date ⟨"new", "r", "s", "Bearer", 7200000⟩) :=
  ⟨by decide,
   c7_expiry_from_response ⟨"a", "r", "s", "Bearer", 100⟩
     ⟨"new", 7200000, none⟩ (by decide)
     ⟨"new", "r", "s", "Bearer", 7200000⟩ rfl⟩

/-- C9: the empty-refresh-token check precedes the freshness check: a fresh
record (`now + 5min ≤ expiry_date`) with empty `refresh_token` still fails
with `MissingRefreshTokenError`, with zero refresh calls and zero store
writes and no client returned; likewise on the JSON layer any truthy parsed
value whose `refresh_token` property is missing or falsy fails the same
way. -/
theorem c9_refresh_token_check_first (now : Int) (c : Credentials)
    (outcome : RefreshOutcome) (htok : c.refresh_token = "")
    (hfresh : now + expiryBuffer ≤ c.expiry_date) :
    ((getAuthenticatedClient now (some c) outcome).result =
       .error .missingRefreshToken ∧
     (getAuthenticatedClient now (some c) outcome).refreshCalls = 0 ∧
     (getAuthenticatedClient now (some c) outcome).storeWrites = 0) ∧
    (∀ j : Json, jsFalsy j = false →
      jsFalsyOpt (getField j "refresh_token") = true →
      credentialCheck (.content j) = some .missingRefreshToken) := by
  constructor
  · simp [getAuthenticatedClient, htok]
  · intro j hj hf
    simp [credentialCheck, loadCredentials, hj, hf]

/-- Witness for C9 at a concrete fresh record with empty refresh token. -/
theorem c9_refresh_token_check_first_witness :
    (("" : String) = "" ∧ (0 : Int) + expiryBuffer ≤ 3600000) ∧
    (((getAuthenticatedClient 0 (some ⟨"tok", "", "s", "Bearer", 3600000⟩)
         (.failure "x")).result = .error .missingRefreshToken ∧
      (getAuthenticatedClient 0 (some ⟨"tok", "", "s", "Bearer", 3600000⟩)
         (.failure "x")).refreshCalls = 0 ∧
      (getAuthenticatedClient 0 (some ⟨"tok", "", "s", "Bearer", 3600000⟩)
         (.failure "x")).storeWrites = 0) ∧
     (∀ j : Json, jsFalsy j = false →
       jsFalsyOpt (getField j "refresh_token") = true →
       credentialCheck (.content j) = some .missingRefreshToken)) :=
  ⟨⟨rfl, by decide⟩,
   c9_refresh_token_check_first 0 ⟨"tok", "", "s", "Bearer", 3600000⟩
     (.failure "x") rfl (by decide)⟩

/-- C10: `refreshAccessToken` keeps the pre-refresh `refresh_token`
unconditionally — for every successful response, including one carrying a
rotated refresh token, the returned and persisted record's `refresh_token`
is the pre-refresh value and the server-supplied replacement is never
read. -/
theorem c10_refresh_token_kept_unconditionally (c : Credentials)
    (resp : RefreshResponse) :
    (refreshAccessToken c (.success resp)).result = .ok
      { access_token := resp.access_token, refresh_token := c.refresh_token,
        scope := c.scope, token_type := c.token_type,
        expiry_date := resp.expiry_date } ∧
    (refreshAccessToken c (.success resp)).saved = some
      { access_token := resp.access_token, refresh_token := c.refresh_token,
        scope := c.scope, token_type := c.token_type,
        expiry_date := resp.expiry_date } :=
  ⟨rfl, rfl⟩

end GmailMcp
